import Mathlib

/-!
Verification of the generic CRUD helper (`src/utils/curdHelper.js`) and the
job-update route table (`src/api/jobupdatemanagement/jobupdateRoute.js`)
of the `chalu_project_indian_sarkari` repository.

The JavaScript code is shallowly embedded: records are association lists of
field names to values, the relational store is a list of records, and every
operation returns its result together with the final store state and the
ordered list of observable events (transaction begin/commit/rollback, store
calls, log lines).  Store-level faults are injected through a boolean so the
catch-all error paths of the source are reachable.
-/

namespace Curd

/-- A value stored in a record field (a JSON-ish scalar). -/
inductive Value : Type where
  | str (s : String)
  | int (n : Int)
  | null
deriving DecidableEq, Repr

/-- Rendering of a value inside a template string, as JS string coercion does. -/
def Value.show : Value → String
  | .str s => s
  | .int n => toString n
  | .null => "null"

/-- A record is an association list from field names to values
(a plain JS object). -/
abbrev Record := List (String × Value)

/-- The relational store backing a model: a list of records. -/
abbrev Store := List Record

/-- Declared attribute type in `model.rawAttributes`.  `isStringType` mirrors
the check `model.rawAttributes[attr].type instanceof DataTypes.STRING`. -/
structure AttrType where
  isStringType : Bool
deriving DecidableEq, Repr

/-- A Sequelize model: its name and its declared raw attributes. -/
structure Model where
  name : String
  rawAttributes : List (String × AttrType)
deriving DecidableEq, Repr

/-- One `{ attr: { [Op.like]: pattern } }` condition of the search
disjunction. -/
structure LikeCond where
  attr : String
  pattern : String
deriving DecidableEq, Repr

/-- The `where` object handed to the store.  The `Op.or` key is a JS Symbol,
so it can never collide with the string keys written by the filter loop;
it is therefore kept as a separate field. -/
structure WhereClause where
  orClauses : Option (List LikeCond)
  fields : List (String × Value)
deriving DecidableEq, Repr

/-- Assignment `where[key] = value` on a JS object: overwrite the value of the key in
place when the key is present, append the key otherwise.  JS objects never
hold a key twice, so replacing the first occurrence is object
assignment. -/
def setEntry : List (String × Value) → String → Value → List (String × Value)
  | [], k, v => [(k, v)]
  | p :: t, k, v => if p.1 = k then (k, v) :: t else p :: setEntry t k v

/-- Read a key from an association list, as JS property lookup (the first
matching entry wins). -/
def lookupEntry : List (String × Value) → String → Option Value
  | [], _ => none
  | p :: t, k => if p.1 = k then some p.2 else lookupEntry t k

/-- The search disjunction built at `curdHelper.js` lines 20-26: one
`LIKE %search%` condition per attribute whose declared type is a string
type, in attribute order. -/
def searchConds (model : Model) (search : String) : List LikeCond :=
  (model.rawAttributes.filter (fun a => a.2.isStringType)).map
    (fun a => { attr := a.1, pattern := "%" ++ search ++ "%" })

/-- JS truthiness of an optional string (`undefined` and `""` are falsy). -/
def strTruthy : Option String → Bool
  | none => false
  | some s => !(s == "")

/-- The `where` object after the `search` and `filter` blocks of `getAll`
(`curdHelper.js` lines 16-33). -/
def buildWhere (model : Model) (search : Option String)
    (filter : Option (List (String × Value))) : WhereClause :=
  let w : WhereClause := { orClauses := none, fields := [] }
  let w :=
    if strTruthy search then
      { w with orClauses := some (searchConds model (search.getD "")) }
    else w
  match filter with
  | none => w
  | some f =>
      { w with fields := f.foldl (fun acc p => setEntry acc p.1 p.2) w.fields }

/-- JS `String.prototype.split` with a one-character separator, on the
character list of the string.  `split` always returns at least one piece. -/
def splitChar (sep : Char) : List Char → List (List Char)
  | [] => [[]]
  | c :: rest =>
    if c = sep then [] :: splitChar sep rest
    else
      match splitChar sep rest with
      | [] => [[c]]
      | p :: ps => (c :: p) :: ps

/-- An error propagating out of an operation: either a deliberately thrown
`Error(msg)` or a JS runtime `TypeError`. -/
inductive JsError : Type where
  | thrown (msg : String)
  | typeError (msg : String)
deriving DecidableEq, Repr

/-- The message carried by an error, as `error.message` in JS. -/
def JsError.message : JsError → String
  | .thrown m => m
  | .typeError m => m

/-- Whether an `Except` result is an error. -/
def isErr {α : Type} : Except JsError α → Bool
  | .error _ => true
  | .ok _ => false

/-- The sort block of `getAll` (`curdHelper.js` lines 35-38):
`const [field, direction] = sort.split(":")` followed by
`order.push([field, direction.toUpperCase()])`.  When the string holds no
separator, `direction` is `undefined` and `toUpperCase` raises a
`TypeError`. -/
def parseSort : Option String → Except JsError (List (String × String))
  | none => .ok []
  | some s =>
    if s == "" then .ok []
    else
      let parts := splitChar ':' s.toList
      match parts.get? 1 with
      | none =>
          .error (.typeError
            "Cannot read properties of undefined (reading toUpperCase)")
      | some dir =>
          .ok [(String.mk (parts.headD []), (String.mk dir).toUpper)]

/-- Arguments of the `model.findAndCountAll` call issued by `getAll`. -/
structure FindArgs where
  whereClause : WhereClause
  limit : Int
  offset : Int
  order : List (String × String)
deriving DecidableEq, Repr

/-- What the store answers to `findAndCountAll`. -/
structure StoreResult where
  rows : List Record
  count : Nat
deriving DecidableEq, Repr

/-- The object returned by `getAll` on success (`curdHelper.js`
lines 51-56). -/
structure GetAllResult where
  rows : List Record
  count : Nat
  totalPages : Int
  currentPage : Int
deriving DecidableEq, Repr

/-- An observable event of an operation, in program order. -/
inductive Event : Type where
  | txnBegin
  | txnCommit
  | txnRollback
  | storeFindAndCountAll (args : FindArgs)
  | storeFindAll (fieldName : String) (fieldValue : Value)
  | storeUpdate (id : Value) (data : Record)
  | storeDestroy (id : Value)
  | storeCreate (data : Record)
  | logInfo (msg : String)
  | logError (msg : String)
deriving DecidableEq, Repr

/-- Computation `Math.ceil(count / limit)`: real division followed by the ceiling. -/
def mathCeil (count : Nat) (limit : Int) : Int :=
  ⌈(count : ℚ) / (limit : ℚ)⌉

/-- The query object accepted by `getAll`. -/
structure Query where
  page : Option Int := none
  limit : Option Int := none
  search : Option String := none
  filter : Option (List (String × Value)) := none
  sort : Option String := none

namespace REST_API

/-- Embedding of `REST_API.getAll` (`curdHelper.js` lines 12-63), with the store behaviour
for `findAndCountAll` supplied as a function of the call arguments. -/
def getAll (model : Model) (q : Query) (store : FindArgs → StoreResult) :
    Except JsError GetAllResult × List Event :=
  let page := q.page.getD 1
  let limit := q.limit.getD 10
  let offset := (page - 1) * limit
  let w := buildWhere model q.search q.filter
  match parseSort q.sort with
  | .error e =>
      (.error e,
       [.logError ("Error reading records from " ++ model.name ++ ": "
          ++ e.message)])
  | .ok order =>
      let args : FindArgs :=
        { whereClause := w, limit := limit, offset := offset, order := order }
      let result := store args
      (.ok { rows := result.rows, count := result.count,
             totalPages := mathCeil result.count limit,
             currentPage := page },
       [.storeFindAndCountAll args,
        .logInfo ("Read records from " ++ model.name)])

end REST_API

/-- Read the `id` field of a record. -/
def recordId (r : Record) : Option Value :=
  lookupEntry r "id"

/-- Whether a row matches the `where: { id }` condition. -/
def matchesId (id : Value) (r : Record) : Bool :=
  recordId r == some id

/-- Apply an update payload to a row: each payload key overwrites the
corresponding field of the row. -/
def mergeData (r : Record) (data : Record) : Record :=
  data.foldl (fun acc p => setEntry acc p.1 p.2) r

/-- Store contract of `model.update(data, { where: { id } })`: the new store,
the number of matched rows, and the updated rows (`returning: true`). -/
def storeUpdateRows (s : Store) (id : Value) (data : Record) :
    Store × Nat × List Record :=
  (s.map (fun r => if matchesId id r then mergeData r data else r),
   (s.filter (matchesId id)).length,
   (s.filter (matchesId id)).map (fun r => mergeData r data))

/-- Store contract of `model.destroy({ where: { id } })`: the new store and
the number of destroyed rows. -/
def storeDestroyRows (s : Store) (id : Value) : Store × Nat :=
  (s.filter (fun r => !(matchesId id r)), (s.filter (matchesId id)).length)

/-- Store contract of `model.findAll({ where: { [fieldName]: fieldValue } })`. -/
def storeFindAllRows (s : Store) (fieldName : String) (fieldValue : Value) :
    List Record :=
  s.filter (fun r => lookupEntry r fieldName == some fieldValue)

/-- The `!data || Object.keys(data).length === 0` check of `create` and
`update`. -/
def emptyData : Option Record → Bool
  | none => true
  | some r => r.isEmpty

/-- Result of a store operation: the value or error it produced, the store
state after it, and the ordered events it emitted. -/
structure OpResult (α : Type) where
  result : Except JsError α
  store : Store
  events : List Event
deriving Repr

namespace REST_API

/-- Embedding of `REST_API.update` (`curdHelper.js` lines 102-130).  A transaction is
begun first; the empty-payload and zero-rows errors, and an injected store
fault, all flow to the catch block which rolls the transaction back (so the
store keeps its initial state), logs the error, and rethrows. -/
def update (model : Model) (id : Value) (data : Option Record) (s : Store)
    (fault : Bool) : OpResult Record :=
  if emptyData data then
    let e : JsError := .thrown "Update data cannot be empty"
    { result := .error e, store := s,
      events := [.txnBegin, .txnRollback,
        .logError ("Error updating record in " ++ model.name ++ ": "
          ++ e.message)] }
  else
    let d := data.getD []
    if fault then
      let e : JsError := .thrown "database error"
      { result := .error e, store := s,
        events := [.txnBegin, .storeUpdate id d, .txnRollback,
          .logError ("Error updating record in " ++ model.name ++ ": "
            ++ e.message)] }
    else
      let (s2, updatedRowsCount, updatedRows) := storeUpdateRows s id d
      if updatedRowsCount = 0 then
        let e : JsError := .thrown (model.name ++ " with id " ++ id.show
          ++ " not found or no changes applied")
        { result := .error e, store := s,
          events := [.txnBegin, .storeUpdate id d, .txnRollback,
            .logError ("Error updating record in " ++ model.name ++ ": "
              ++ e.message)] }
      else
        { result := .ok (updatedRows.headD []), store := s2,
          events := [.txnBegin, .storeUpdate id d, .txnCommit,
            .logInfo ("Updated record in " ++ model.name ++ " with id "
              ++ id.show)] }

/-- Embedding of `REST_API.create` (`curdHelper.js` lines 166-183).  A transaction is
begun first; the empty-payload error and an injected store fault roll it
back, log, and rethrow; otherwise the row is inserted and the transaction
committed. -/
def create (model : Model) (data : Option Record) (s : Store)
    (fault : Bool) : OpResult Record :=
  if emptyData data then
    let e : JsError := .thrown "Data cannot be empty"
    { result := .error e, store := s,
      events := [.txnBegin, .txnRollback,
        .logError ("Error creating record in " ++ model.name ++ ": "
          ++ e.message)] }
  else
    let d := data.getD []
    if fault then
      let e : JsError := .thrown "database error"
      { result := .error e, store := s,
        events := [.txnBegin, .storeCreate d, .txnRollback,
          .logError ("Error creating record in " ++ model.name ++ ": "
            ++ e.message)] }
    else
      { result := .ok d, store := s ++ [d],
        events := [.txnBegin, .storeCreate d, .txnCommit,
          .logInfo ("Created record in " ++ model.name ++ " with id "
            ++ ((recordId d).getD Value.null).show)] }

/-- Embedding of `REST_API.delete` (`curdHelper.js` lines 138-158).  No transaction is
used: `model.destroy` is called directly; a zero count raises the
not-found-or-already-deleted error, which is logged and rethrown, and on
success the string literal `"deleted"` is returned. -/
def delete (model : Model) (id : Value) (s : Store) (fault : Bool) :
    OpResult String :=
  if fault then
    let e : JsError := .thrown "database error"
    { result := .error e, store := s,
      events := [.storeDestroy id,
        .logError ("Error soft deleting record from " ++ model.name ++ ": "
          ++ e.message)] }
  else
    let (s2, cnt) := storeDestroyRows s id
    if cnt = 0 then
      let e : JsError := .thrown (model.name ++ " with id " ++ id.show
        ++ " not found or already deleted")
      { result := .error e, store := s2,
        events := [.storeDestroy id,
          .logError ("Error soft deleting record from " ++ model.name
            ++ ": " ++ e.message)] }
    else
      { result := .ok "deleted", store := s2,
        events := [.storeDestroy id,
          .logInfo ("Soft deleted record from " ++ model.name ++ " with id "
            ++ id.show)] }

/-- Embedding of `REST_API.getDataListByField` (`curdHelper.js` lines 72-93).  No
transaction is used: `model.findAll` is called directly; an empty result
raises the not-found error, and every error is logged before being
rethrown. -/
def getDataListByField (model : Model) (fieldName : String)
    (fieldValue : Value) (s : Store) (fault : Bool) :
    OpResult (List Record) :=
  if fault then
    let e : JsError := .thrown "database error"
    { result := .error e, store := s,
      events := [.storeFindAll fieldName fieldValue,
        .logError ("Error reading " ++ model.name ++ ": " ++ e.message)] }
  else
    let result := storeFindAllRows s fieldName fieldValue
    if result.length = 0 then
      let e : JsError := .thrown (model.name ++ " with " ++ fieldName ++ " "
        ++ fieldValue.show ++ " not found")
      { result := .error e, store := s,
        events := [.storeFindAll fieldName fieldValue,
          .logError ("Error reading " ++ model.name ++ ": " ++ e.message)] }
    else
      { result := .ok result, store := s,
        events := [.storeFindAll fieldName fieldValue,
          .logInfo ("Read record(s) from " ++ model.name ++ " with "
            ++ fieldName ++ " " ++ fieldValue.show)] }

end REST_API

/-- HTTP methods used by the router. -/
inductive Method : Type where
  | get
  | post
  | put
  | delete
deriving DecidableEq, Repr

/-- One `router.<method>(path, handler)` registration. -/
structure Route where
  method : Method
  path : String
  handler : String
deriving DecidableEq, Repr

/-- The registrations of `src/api/jobupdatemanagement/jobupdateRoute.js`,
in source order. -/
def jobupdateRouter : List Route :=
  [ { method := .get, path := "/job-updates",
      handler := "getAllJobUpdates" },
    { method := .get, path := "/job-updates/:id",
      handler := "getJobUpdateById" },
    { method := .post, path := "/job-updates",
      handler := "createJobUpdate" },
    { method := .put, path := "/job-updates/:id",
      handler := "updateJobUpdate" },
    { method := .delete, path := "/job-updates/:id",
      handler := "deleteJobUpdate" },
    { method := .get, path := "/latest-jobs",
      handler := "getLatestJobs" },
    { method := .get, path := "/admit-cards",
      handler := "getAdmitCards" },
    { method := .get, path := "/answer-keys",
      handler := "getAnswerKeys" },
    { method := .get, path := "/results",
      handler := "getResults" } ]

/-- The handlers registered for a method and path pair. -/
def routesFor (m : Method) (p : String) : List String :=
  (jobupdateRouter.filter (fun r => r.method == m && r.path == p)).map
    (fun r => r.handler)

/-- A concrete model used to instantiate theorems. -/
def demoModel : Model :=
  { name := "JobUpdate",
    rawAttributes :=
      [("id", { isStringType := false }),
       ("title", { isStringType := true }),
       ("department", { isStringType := true }),
       ("posts", { isStringType := false })] }

/-- A concrete store used to instantiate theorems. -/
def demoStore : Store :=
  [[("id", .int 1), ("title", .str "SSC CGL")],
   [("id", .int 2), ("title", .str "UPSC CSE")]]

/-- A concrete query used to instantiate theorems. -/
def demoQuery : Query :=
  { page := some 2, limit := some 5 }

/-- A concrete store behaviour for `findAndCountAll`. -/
def demoFind : FindArgs → StoreResult :=
  fun _ => { rows := demoStore, count := 12 }

theorem splitChar_of_not_mem (sep : Char) (cs : List Char) (h : sep ∉ cs) :
    splitChar sep cs = [cs] := by
  induction cs with
  | nil => rfl
  | cons c rest ih =>
      have hc : c ≠ sep := fun hcs => h (hcs ▸ List.mem_cons_self c rest)
      have hrest : sep ∉ rest := fun hm => h (List.mem_cons_of_mem c hm)
      rw [splitChar, if_neg hc, ih hrest]

theorem lookupEntry_setEntry (l : List (String × Value)) (k k' : String)
    (v : Value) :
    lookupEntry (setEntry l k v) k' =
      if k' = k then some v else lookupEntry l k' := by
  induction l with
  | nil =>
      by_cases hk : k' = k
      · subst hk
        simp [setEntry, lookupEntry]
      · have hk2 : ¬ k = k' := fun hc => hk hc.symm
        simp [setEntry, lookupEntry, hk, hk2]
  | cons p t ih =>
      by_cases hp : p.1 = k
      · by_cases hk : k' = k
        · subst hk
          simp [setEntry, lookupEntry, hp]
        · have hk2 : ¬ k = k' := fun hc => hk hc.symm
          simp [setEntry, lookupEntry, hp, hk, hk2]
      · by_cases hpk : p.1 = k'
        · have hk : ¬ k' = k := fun he => hp (by rw [hpk, he])
          simp [setEntry, lookupEntry, hp, hpk, hk]
        · simp [setEntry, lookupEntry, hp, hpk, ih]

theorem lookupEntry_foldl_setEntry (f : List (String × Value)) (k : String) :
    lookupEntry (f.foldl (fun acc p => setEntry acc p.1 p.2) []) k =
      (f.reverse.find? (fun p => p.1 == k)).map (fun p => p.2) := by
  induction f using List.reverseRecOn with
  | nil => rfl
  | append_singleton g p ih =>
      rw [List.foldl_append, List.reverse_append]
      simp only [List.foldl_cons, List.foldl_nil, List.reverse_cons,
        List.reverse_nil, List.nil_append, List.singleton_append,
        List.find?_cons]
      by_cases hp : p.1 = k
      · have hb : (p.1 == k) = true := by simpa using hp
        rw [lookupEntry_setEntry, if_pos hp.symm]
        simp [hb]
      · have hb : (p.1 == k) = false := by simpa using hp
        rw [lookupEntry_setEntry, if_neg (fun he => hp he.symm)]
        simp [hb, ih]

/-- C5: when the payload is missing or has no keys, `create` and `update`
throw their empty-payload errors, no store write is issued, the transaction
is rolled back, and the store state is unchanged. -/
theorem create_update_empty_payload (model : Model) (id : Value)
    (data : Option Record) (s : Store) (fault : Bool)
    (hd : emptyData data = true) :
    (REST_API.update model id data s fault).result =
      .error (.thrown "Update data cannot be empty") ∧
    (REST_API.update model id data s fault).store = s ∧
    (∀ i d, Event.storeUpdate i d ∉
      (REST_API.update model id data s fault).events) ∧
    Event.txnRollback ∈ (REST_API.update model id data s fault).events ∧
    (REST_API.create model data s fault).result =
      .error (.thrown "Data cannot be empty") ∧
    (REST_API.create model data s fault).store = s ∧
    (∀ d, Event.storeCreate d ∉
      (REST_API.create model data s fault).events) ∧
    Event.txnRollback ∈ (REST_API.create model data s fault).events := by
  simp [REST_API.update, REST_API.create, hd]

theorem create_update_empty_payload_witness :
    emptyData none = true ∧
    ((REST_API.update demoModel (.int 1) none demoStore false).result =
      .error (.thrown "Update data cannot be empty") ∧
    (REST_API.update demoModel (.int 1) none demoStore false).store =
      demoStore ∧
    (∀ i d, Event.storeUpdate i d ∉
      (REST_API.update demoModel (.int 1) none demoStore false).events) ∧
    Event.txnRollback ∈
      (REST_API.update demoModel (.int 1) none demoStore false).events ∧
    (REST_API.create demoModel none demoStore false).result =
      .error (.thrown "Data cannot be empty") ∧
    (REST_API.create demoModel none demoStore false).store = demoStore ∧
    (∀ d, Event.storeCreate d ∉
      (REST_API.create demoModel none demoStore false).events) ∧
    Event.txnRollback ∈
      (REST_API.create demoModel none demoStore false).events) :=
  ⟨rfl, create_update_empty_payload demoModel (.int 1) none demoStore
    false rfl⟩

/-- C6: `update` throws the not-found error exactly when zero rows match
the id; on success it commits the transaction and returns the first updated
row; and on any error it rolls the transaction back (leaving the store
unchanged) before rethrowing, after logging. -/
theorem update_spec (model : Model) (id : Value) (r : Record) (s : Store)
    (hr : r ≠ []) :
    ((REST_API.update model id (some r) s false).result =
        .error (.thrown (model.name ++ " with id " ++ id.show
          ++ " not found or no changes applied"))
      ↔ (s.filter (matchesId id)).length = 0) ∧
    ((s.filter (matchesId id)).length ≠ 0 →
      (REST_API.update model id (some r) s false).result =
        .ok (((s.filter (matchesId id)).map
          (fun row => mergeData row r)).headD []) ∧
      Event.txnCommit ∈ (REST_API.update model id (some r) s false).events ∧
      Event.txnRollback ∉
        (REST_API.update model id (some r) s false).events ∧
      (REST_API.update model id (some r) s false).store =
        s.map (fun row => if matchesId id row then mergeData row r
          else row)) ∧
    (∀ fault e,
      (REST_API.update model id (some r) s fault).result = .error e →
      Event.txnRollback ∈ (REST_API.update model id (some r) s fault).events ∧
      (REST_API.update model id (some r) s fault).store = s ∧
      (REST_API.update model id (some r) s fault).events.getLast? =
        some (.logError ("Error updating record in " ++ model.name ++ ": "
          ++ e.message))) := by
  have hde : emptyData (some r) = false := by
    cases r with
    | nil => exact absurd rfl hr
    | cons a t => rfl
  refine ⟨?_, ?_, ?_⟩
  · by_cases hc : (s.filter (matchesId id)).length = 0 <;>
      simp [REST_API.update, storeUpdateRows, hde, hc]
  · intro hc
    simp [REST_API.update, storeUpdateRows, hde, hc]
  · intro fault e he
    cases fault with
    | true =>
        simp [REST_API.update, hde] at he
        simp [REST_API.update, hde, ← he, JsError.message]
    | false =>
        by_cases hc : (s.filter (matchesId id)).length = 0
        · simp [REST_API.update, storeUpdateRows, hde, hc] at he
          simp [REST_API.update, storeUpdateRows, hde, hc, ← he,
            JsError.message]
        · simp [REST_API.update, storeUpdateRows, hde, hc] at he

theorem update_spec_witness :
    ([(("title" : String), Value.str "New")] : Record) ≠ [] ∧
    (((REST_API.update demoModel (.int 1)
          (some [("title", Value.str "New")]) demoStore false).result =
        .error (.thrown (demoModel.name ++ " with id " ++ (Value.int 1).show
          ++ " not found or no changes applied"))
      ↔ (demoStore.filter (matchesId (.int 1))).length = 0) ∧
    ((demoStore.filter (matchesId (.int 1))).length ≠ 0 →
      (REST_API.update demoModel (.int 1)
          (some [("title", Value.str "New")]) demoStore false).result =
        .ok (((demoStore.filter (matchesId (.int 1))).map
          (fun row => mergeData row [("title", Value.str "New")])).headD []) ∧
      Event.txnCommit ∈ (REST_API.update demoModel (.int 1)
        (some [("title", Value.str "New")]) demoStore false).events ∧
      Event.txnRollback ∉ (REST_API.update demoModel (.int 1)
        (some [("title", Value.str "New")]) demoStore false).events ∧
      (REST_API.update demoModel (.int 1)
          (some [("title", Value.str "New")]) demoStore false).store =
        demoStore.map (fun row => if matchesId (.int 1) row then
          mergeData row [("title", Value.str "New")] else row)) ∧
    (∀ fault e,
      (REST_API.update demoModel (.int 1)
        (some [("title", Value.str "New")]) demoStore fault).result =
          .error e →
      Event.txnRollback ∈ (REST_API.update demoModel (.int 1)
        (some [("title", Value.str "New")]) demoStore fault).events ∧
      (REST_API.update demoModel (.int 1)
        (some [("title", Value.str "New")]) demoStore fault).store =
          demoStore ∧
      (REST_API.update demoModel (.int 1)
        (some [("title", Value.str "New")]) demoStore fault).events.getLast? =
        some (.logError ("Error updating record in " ++ demoModel.name
          ++ ": " ++ e.message)))) :=
  ⟨by decide, update_spec demoModel (.int 1) [("title", Value.str "New")]
    demoStore (by decide)⟩

/-- C1 as stated is false: `delete` reaches the store, issuing its destroy
call with no transaction begun, committed, or rolled back around it. -/
theorem delete_without_transaction :
    Event.storeDestroy (Value.int 1) ∈
      (REST_API.delete demoModel (.int 1) demoStore false).events ∧
    Event.txnBegin ∉
      (REST_API.delete demoModel (.int 1) demoStore false).events ∧
    Event.txnCommit ∉
      (REST_API.delete demoModel (.int 1) demoStore false).events ∧
    Event.txnRollback ∉
      (REST_API.delete demoModel (.int 1) demoStore false).events := by
  refine ⟨?_, ?_, ?_, ?_⟩ <;>
    simp [REST_API.delete, storeDestroyRows, demoStore, demoModel,
      matchesId, recordId, lookupEntry]

/-- C1 (amended): only `update` and `create` scope their store calls in a
per-call transaction, committed on success and rolled back on failure with
the store left unchanged; `getAll`, `getDataListByField`, and `delete`
issue their store calls with no transaction at all. -/
theorem transaction_scoping (model : Model) (id : Value)
    (data : Option Record) (s : Store) (fault : Bool) (q : Query)
    (store : FindArgs → StoreResult) (fieldName : String)
    (fieldValue : Value) :
    ((REST_API.update model id data s fault).events.head? =
      some .txnBegin) ∧
    (∀ v, (REST_API.update model id data s fault).result = .ok v →
      Event.txnCommit ∈ (REST_API.update model id data s fault).events ∧
      Event.txnRollback ∉ (REST_API.update model id data s fault).events) ∧
    (∀ e, (REST_API.update model id data s fault).result = .error e →
      Event.txnRollback ∈ (REST_API.update model id data s fault).events ∧
      Event.txnCommit ∉ (REST_API.update model id data s fault).events ∧
      (REST_API.update model id data s fault).store = s) ∧
    ((REST_API.create model data s fault).events.head? =
      some .txnBegin) ∧
    (∀ v, (REST_API.create model data s fault).result = .ok v →
      Event.txnCommit ∈ (REST_API.create model data s fault).events ∧
      Event.txnRollback ∉ (REST_API.create model data s fault).events) ∧
    (∀ e, (REST_API.create model data s fault).result = .error e →
      Event.txnRollback ∈ (REST_API.create model data s fault).events ∧
      Event.txnCommit ∉ (REST_API.create model data s fault).events ∧
      (REST_API.create model data s fault).store = s) ∧
    (∀ ev ∈ (REST_API.delete model id s fault).events,
      ev ≠ .txnBegin ∧ ev ≠ .txnCommit ∧ ev ≠ .txnRollback) ∧
    (∀ ev ∈ (REST_API.getDataListByField model fieldName fieldValue s
        fault).events,
      ev ≠ .txnBegin ∧ ev ≠ .txnCommit ∧ ev ≠ .txnRollback) ∧
    (∀ ev ∈ (REST_API.getAll model q store).2,
      ev ≠ .txnBegin ∧ ev ≠ .txnCommit ∧ ev ≠ .txnRollback) := by
  cases hd : emptyData data <;> cases fault <;>
    by_cases hc : (s.filter (matchesId id)).length = 0 <;>
    by_cases hg : (storeFindAllRows s fieldName fieldValue).length = 0 <;>
    cases hps : parseSort q.sort <;>
    simp [REST_API.update, REST_API.create, REST_API.delete,
      REST_API.getDataListByField, REST_API.getAll, storeUpdateRows,
      storeDestroyRows, hd, hc, hg, hps]

/-- C3: for a non-empty search term, the WHERE clause of `getAll` holds a
disjunction with one `LIKE %search%` condition per attribute whose declared
type is a string type, and only those attributes. -/
theorem getAll_search_clause (model : Model) (s : String)
    (filter : Option (List (String × Value))) (hs : s ≠ "") :
    (buildWhere model (some s) filter).orClauses =
      some (searchConds model s) ∧
    ∀ c : LikeCond,
      c ∈ searchConds model s ↔
        ∃ a, a ∈ model.rawAttributes ∧ a.2.isStringType = true ∧
          c = { attr := a.1, pattern := "%" ++ s ++ "%" } := by
  constructor
  · have ht : strTruthy (some s) = true := by simp [strTruthy, hs]
    cases filter with
    | none => simp [buildWhere, ht]
    | some f => simp [buildWhere, ht]
  · intro c
    simp only [searchConds, List.mem_map, List.mem_filter]
    constructor
    · rintro ⟨a, ⟨ha, hstr⟩, rfl⟩
      exact ⟨a, ha, hstr, rfl⟩
    · rintro ⟨a, ha, hstr, rfl⟩
      exact ⟨a, ⟨ha, hstr⟩, rfl⟩

theorem getAll_search_clause_witness :
    "cgl" ≠ "" ∧
    ((buildWhere demoModel (some "cgl") none).orClauses =
        some (searchConds demoModel "cgl") ∧
      ∀ c : LikeCond,
        c ∈ searchConds demoModel "cgl" ↔
          ∃ a, a ∈ demoModel.rawAttributes ∧ a.2.isStringType = true ∧
            c = { attr := a.1, pattern := "%" ++ "cgl" ++ "%" }) :=
  ⟨by decide, getAll_search_clause demoModel "cgl" none (by decide)⟩

/-- C10: when both a search term and a filter object are supplied, the
filter keys are written next to the search disjunction without touching it
(the `Op.or` key is a Symbol, distinct from every string key), and a later
filter key overwrites an earlier value for the same key. -/
theorem getAll_filter_preserves_search (model : Model) (s : String)
    (f : List (String × Value)) (hs : s ≠ "") :
    (buildWhere model (some s) (some f)).orClauses =
      some (searchConds model s) ∧
    ∀ k, lookupEntry (buildWhere model (some s) (some f)).fields k =
      (f.reverse.find? (fun p => p.1 == k)).map (fun p => p.2) := by
  have ht : strTruthy (some s) = true := by simp [strTruthy, hs]
  constructor
  · simp [buildWhere, ht]
  · intro k
    have hf : (buildWhere model (some s) (some f)).fields =
        f.foldl (fun acc p => setEntry acc p.1 p.2) [] := by
      simp [buildWhere, ht]
    rw [hf, lookupEntry_foldl_setEntry]

theorem getAll_filter_preserves_search_witness :
    "upsc" ≠ "" ∧
    ((buildWhere demoModel (some "upsc")
        (some [("department", .str "railways"),
               ("department", .str "defence")])).orClauses =
      some (searchConds demoModel "upsc") ∧
    ∀ k, lookupEntry (buildWhere demoModel (some "upsc")
        (some [("department", .str "railways"),
               ("department", .str "defence")])).fields k =
      (([("department", Value.str "railways"),
         ("department", Value.str "defence")].reverse.find?
          (fun p => p.1 == k)).map (fun p => p.2))) :=
  ⟨by decide, getAll_filter_preserves_search demoModel "upsc"
    [("department", .str "railways"), ("department", .str "defence")]
    (by decide)⟩

/-- C9: when the sort option is a non-empty string with no ":" separator,
`getAll` raises a TypeError before the store is ever queried, rather than a
deliberately thrown error. -/
theorem getAll_sort_missing_separator (model : Model) (q : Query)
    (store : FindArgs → StoreResult) (s : String) (hq : q.sort = some s)
    (hne : s ≠ "") (hnc : ':' ∉ s.toList) :
    (REST_API.getAll model q store).1 =
      .error (.typeError
        "Cannot read properties of undefined (reading toUpperCase)") ∧
    (∀ m, (REST_API.getAll model q store).1 ≠ .error (.thrown m)) ∧
    (∀ args, Event.storeFindAndCountAll args ∉
      (REST_API.getAll model q store).2) := by
  have hsn : (s == "") = false := by simpa using hne
  have hsplit : splitChar ':' s.toList = [s.toList] :=
    splitChar_of_not_mem _ _ hnc
  have hps : parseSort q.sort =
      .error (.typeError
        "Cannot read properties of undefined (reading toUpperCase)") := by
    rw [hq]
    have hsplit2 : splitChar ':' s.data = [s.data] := hsplit
    simp [parseSort, hsn, hsplit2]
  refine ⟨?_, ?_, ?_⟩ <;> simp [REST_API.getAll, hps]

theorem getAll_sort_missing_separator_witness :
    ({ sort := some "title" } : Query).sort = some "title" ∧
    "title" ≠ "" ∧ ':' ∉ "title".toList ∧
    ((REST_API.getAll demoModel { sort := some "title" } demoFind).1 =
      .error (.typeError
        "Cannot read properties of undefined (reading toUpperCase)") ∧
    (∀ m, (REST_API.getAll demoModel { sort := some "title" } demoFind).1 ≠
      .error (.thrown m)) ∧
    (∀ args, Event.storeFindAndCountAll args ∉
      (REST_API.getAll demoModel { sort := some "title" } demoFind).2)) :=
  ⟨rfl, by decide, by decide,
    getAll_sort_missing_separator demoModel { sort := some "title" }
      demoFind "title" rfl (by decide) (by decide)⟩

/-- C2: `getAll` pages with defaults page 1 and limit 10, requests the
store with offset (page - 1) * limit and the given limit, and returns
totalPages = ceil(count / limit) and currentPage = the requested page. -/
theorem getAll_pagination (model : Model) (q : Query)
    (store : FindArgs → StoreResult) (p l : Int)
    (hp : q.page.getD 1 = p) (hl : q.limit.getD 10 = l) (hpos : 0 < l)
    (hsort : ∃ o, parseSort q.sort = .ok o) :
    ∃ args res,
      (REST_API.getAll model q store).1 = .ok res ∧
      (REST_API.getAll model q store).2 =
        [.storeFindAndCountAll args,
         .logInfo ("Read records from " ++ model.name)] ∧
      args.offset = (p - 1) * l ∧
      args.limit = l ∧
      res.count = (store args).count ∧
      res.totalPages = ⌈(((store args).count : ℚ) / (l : ℚ))⌉ ∧
      res.currentPage = p := by
  obtain ⟨o, ho⟩ := hsort
  subst hp
  subst hl
  simp only [REST_API.getAll, ho]
  exact ⟨_, _, rfl, rfl, rfl, rfl, rfl, rfl, rfl⟩

theorem getAll_pagination_witness :
    (demoQuery.page.getD 1 = 2) ∧ (demoQuery.limit.getD 10 = 5) ∧
    ((0 : Int) < 5) ∧ (∃ o, parseSort demoQuery.sort = .ok o) ∧
    (∃ args res,
      (REST_API.getAll demoModel demoQuery demoFind).1 = .ok res ∧
      (REST_API.getAll demoModel demoQuery demoFind).2 =
        [.storeFindAndCountAll args,
         .logInfo ("Read records from " ++ demoModel.name)] ∧
      args.offset = ((2 : Int) - 1) * 5 ∧
      args.limit = (5 : Int) ∧
      res.count = (demoFind args).count ∧
      res.totalPages = ⌈(((demoFind args).count : ℚ) / ((5 : Int) : ℚ))⌉ ∧
      res.currentPage = 2) :=
  ⟨rfl, rfl, by decide, ⟨[], rfl⟩,
    getAll_pagination demoModel demoQuery demoFind 2 5 rfl rfl (by decide)
      ⟨[], rfl⟩⟩

/-- C8: the job-updates routes each map one method and path pair to exactly
one controller action: GET `/job-updates` to the get-all action, GET
`/job-updates/:id` to the get-by-id action, POST `/job-updates` to the
create action, PUT `/job-updates/:id` to the update action, and DELETE
`/job-updates/:id` to the delete action. -/
theorem jobupdate_route_mapping :
    routesFor .get "/job-updates" = ["getAllJobUpdates"] ∧
    routesFor .get "/job-updates/:id" = ["getJobUpdateById"] ∧
    routesFor .post "/job-updates" = ["createJobUpdate"] ∧
    routesFor .put "/job-updates/:id" = ["updateJobUpdate"] ∧
    routesFor .delete "/job-updates/:id" = ["deleteJobUpdate"] :=
  ⟨rfl, rfl, rfl, rfl, rfl⟩

/-- C7: `delete` throws the not-found-or-already-deleted error exactly when
the store destroys zero rows for the id; when at least one row is destroyed
it returns the string "deleted"; and every error is logged before being
rethrown. -/
theorem delete_spec (model : Model) (id : Value) (s : Store) :
    ((REST_API.delete model id s false).result =
        .error (.thrown (model.name ++ " with id " ++ id.show
          ++ " not found or already deleted"))
      ↔ (s.filter (matchesId id)).length = 0) ∧
    ((s.filter (matchesId id)).length ≠ 0 →
      (REST_API.delete model id s false).result = .ok "deleted") ∧
    (∀ fault e,
      (REST_API.delete model id s fault).result = .error e →
      (REST_API.delete model id s fault).events.getLast? =
        some (.logError ("Error soft deleting record from " ++ model.name
          ++ ": " ++ e.message))) := by
  refine ⟨?_, ?_, ?_⟩
  · by_cases hc : (s.filter (matchesId id)).length = 0 <;>
      simp [REST_API.delete, storeDestroyRows, hc]
  · intro hc
    simp [REST_API.delete, storeDestroyRows, hc]
  · intro fault e he
    cases fault with
    | true =>
        simp only [REST_API.delete, if_true, Except.error.injEq] at he
        simp [REST_API.delete, ← he, JsError.message]
    | false =>
        by_cases hc : (s.filter (matchesId id)).length = 0
        · simp only [REST_API.delete, storeDestroyRows, hc, if_pos,
            Bool.false_eq_true, if_false, Except.error.injEq] at he
          simp [REST_API.delete, storeDestroyRows, hc, ← he]
        · simp [REST_API.delete, storeDestroyRows, hc] at he

/-- C4: `getDataListByField` throws the not-found error exactly when the
store query for the field returns an empty list; a non-empty list is
returned unchanged; and every error is logged before being rethrown. -/
theorem getDataListByField_spec (model : Model) (fieldName : String)
    (fieldValue : Value) (s : Store) :
    ((REST_API.getDataListByField model fieldName fieldValue s false).result =
        .error (.thrown (model.name ++ " with " ++ fieldName ++ " "
          ++ fieldValue.show ++ " not found"))
      ↔ storeFindAllRows s fieldName fieldValue = []) ∧
    (storeFindAllRows s fieldName fieldValue ≠ [] →
      (REST_API.getDataListByField model fieldName fieldValue s false).result =
        .ok (storeFindAllRows s fieldName fieldValue)) ∧
    (∀ fault e,
      (REST_API.getDataListByField model fieldName fieldValue s fault).result =
        .error e →
      (REST_API.getDataListByField model fieldName fieldValue s fault).events.getLast? =
        some (.logError ("Error reading " ++ model.name ++ ": "
          ++ e.message))) := by
  refine ⟨?_, ?_, ?_⟩
  · by_cases hc : storeFindAllRows s fieldName fieldValue = [] <;>
      simp [REST_API.getDataListByField, List.length_eq_zero, hc]
  · intro hc
    simp [REST_API.getDataListByField, List.length_eq_zero, hc]
  · intro fault e he
    cases fault with
    | true =>
        simp only [REST_API.getDataListByField, if_true, Except.error.injEq] at he
        simp [REST_API.getDataListByField, ← he, JsError.message]
    | false =>
        by_cases hc : storeFindAllRows s fieldName fieldValue = []
        · simp only [REST_API.getDataListByField, List.length_eq_zero, hc,
            if_pos, Bool.false_eq_true, if_false, Except.error.injEq] at he
          simp [REST_API.getDataListByField, List.length_eq_zero, hc, ← he]
        · simp [REST_API.getDataListByField, List.length_eq_zero, hc] at he

end Curd
